import Mathlib

/-!
Shallow embedding of the parts of the nuplan-devkit planning code that the
claims below are about: `nuplan/planning/metrics/metric_result.py` and the
IDM observation adapter `nuplan/planning/simulation/observation/idm_agents.py`,
together with spec-modelled pieces of the IDM agent engine the adapter drives
(that engine's source is not part of the visible sources).

Python floats are carried as rationals; no claim here depends on rounding.
-/

namespace Nuplan

/- ### metric_result.py : MetricStatisticsType (lines 11-40) -/

inductive MetricStatisticsType where
  | MAX
  | MIN
  | P90
  | MEAN
  | COUNT
  | VALUE
  | DISTANCE
  | VELOCITY
  | BOOLEAN
  | RATIO
  deriving DecidableEq

/-- The Python identifier of each enum member: the key under which the member
is stored in the class's `__members__` mapping. -/
def MetricStatisticsType.memberName : MetricStatisticsType → String
  | MAX => "MAX"
  | MIN => "MIN"
  | P90 => "P90"
  | MEAN => "MEAN"
  | COUNT => "COUNT"
  | VALUE => "VALUE"
  | DISTANCE => "DISTANCE"
  | VELOCITY => "VELOCITY"
  | BOOLEAN => "BOOLEAN"
  | RATIO => "RATIO"

/-- The string value assigned to each member in the source
(`MAX: str = 'MAX'`, ..., each value spelled like the member's own name). -/
def MetricStatisticsType.value : MetricStatisticsType → String
  | MAX => "MAX"
  | MIN => "MIN"
  | P90 => "P90"
  | MEAN => "MEAN"
  | COUNT => "COUNT"
  | VALUE => "VALUE"
  | DISTANCE => "DISTANCE"
  | VELOCITY => "VELOCITY"
  | BOOLEAN => "BOOLEAN"
  | RATIO => "RATIO"

/-- `serialize` returns the member's value (metric_result.py line 35). -/
def MetricStatisticsType.serialize (t : MetricStatisticsType) : String :=
  t.value

/-- Python's `Enum.__members__`: an ordered mapping from member name to member,
in declaration order. -/
def MetricStatisticsType.members : List (String × MetricStatisticsType) :=
  [("MAX", MAX), ("MIN", MIN), ("P90", P90), ("MEAN", MEAN), ("COUNT", COUNT),
   ("VALUE", VALUE), ("DISTANCE", DISTANCE), ("VELOCITY", VELOCITY),
   ("BOOLEAN", BOOLEAN), ("RATIO", RATIO)]

/-- `deserialize` looks the string up by member name in `__members__`
(metric_result.py line 40); a missing key raises, modelled as `none`. -/
def MetricStatisticsType.deserialize (key : String) : Option MetricStatisticsType :=
  (MetricStatisticsType.members.find? (fun p => p.1 == key)).map (fun p => p.2)

/- ### metric_result.py : MetricViolation (lines 201-238) -/

/-- A value stored in a serialized metric dictionary. -/
inductive JsonValue where
  | str (s : String)
  | int (n : Int)
  | float (q : ℚ)
  deriving DecidableEq

/-- Python dict subscript access `data[key]`: the stored value, or a KeyError
naming the missing key. -/
def dictGet (data : List (String × JsonValue)) (key : String) :
    Except String JsonValue :=
  match data.find? (fun p => p.1 == key) with
  | some p => Except.ok p.2
  | none => Except.error key

/-- Inverse of the `str` injection; the dataclass declares these fields as
`str`, and serialize produces exactly this constructor for them. -/
def JsonValue.asStr : JsonValue → Except String String
  | JsonValue.str s => Except.ok s
  | _ => Except.error "expected str"

/-- Inverse of the `int` injection. -/
def JsonValue.asInt : JsonValue → Except String Int
  | JsonValue.int n => Except.ok n
  | _ => Except.error "expected int"

/-- Inverse of the `float` injection. -/
def JsonValue.asFloat : JsonValue → Except String ℚ
  | JsonValue.float q => Except.ok q
  | _ => Except.error "expected float"

/-- The MetricViolation dataclass (metric_result.py lines 201-209), with the
three fields inherited from MetricResult. -/
structure MetricViolation where
  metric_computator : String
  name : String
  metric_category : String
  unit : String
  start_timestamp : Int
  duration : Int
  extremum : ℚ
  mean : ℚ
  deriving DecidableEq

/-- MetricViolation.serialize (metric_result.py lines 211-221): the emitted
dictionary holds seven keys, in source order, and omits `mean`. -/
def MetricViolation.serialize (v : MetricViolation) : List (String × JsonValue) :=
  [("metric_computator", JsonValue.str v.metric_computator),
   ("name", JsonValue.str v.name),
   ("unit", JsonValue.str v.unit),
   ("start_timestamp", JsonValue.int v.start_timestamp),
   ("duration", JsonValue.int v.duration),
   ("extremum", JsonValue.float v.extremum),
   ("metric_category", JsonValue.str v.metric_category)]

/-- MetricViolation.deserialize (metric_result.py lines 223-238): reads the
keyword arguments in their textual order, each via `data[...]`; the first
missing key aborts the call with that key's error. -/
def MetricViolation.deserialize (data : List (String × JsonValue)) :
    Except String MetricViolation := do
  let metric_computator ← (← dictGet data "metric_computator").asStr
  let name ← (← dictGet data "name").asStr
  let start_timestamp ← (← dictGet data "start_timestamp").asInt
  let duration ← (← dictGet data "duration").asInt
  let extremum ← (← dictGet data "extremum").asFloat
  let unit ← (← dictGet data "unit").asStr
  let metric_category ← (← dictGet data "metric_category").asStr
  let mean ← (← dictGet data "mean").asFloat
  Except.ok
    { metric_computator := metric_computator, name := name,
      metric_category := metric_category, unit := unit,
      start_timestamp := start_timestamp, duration := duration,
      extremum := extremum, mean := mean }

/- ### maps_datatypes.py (external collaborator): traffic-light records -/

/-- Traffic-light phase enum (nuplan.common.maps.maps_datatypes). -/
inductive TrafficLightStatusType where
  | GREEN
  | YELLOW
  | RED
  | UNKNOWN
  deriving DecidableEq

/-- The fields of a TrafficLightStatusData record that the adapter reads. -/
structure TrafficLightStatusData where
  status : TrafficLightStatusType
  lane_connector_id : Int
  deriving DecidableEq

/- ### simulation_iteration.py / history buffer (external collaborators) -/

/-- A simulation iteration: its time in seconds and its index. -/
structure SimulationIteration where
  time_s : ℚ
  index : Nat
  deriving DecidableEq

/-- Opaque handle for an ego kinematic state; the adapter passes it through. -/
structure EgoState where
  handle : Nat
  deriving DecidableEq

/-- The part of SimulationHistoryBuffer the adapter reads:
`current_state` is the pair (ego state, observation). -/
structure SimulationHistoryBuffer where
  current_state : EgoState × Nat

/- ### IDM agent engine (idm/ package, not among the visible sources) -/

/-- Per-agent kinematic state: arc-length progress along the assigned path and
longitudinal velocity. -/
structure IDMAgentState where
  progress : ℚ
  velocity : ℚ
  deriving DecidableEq

/-- Modelled from the spec: the kinematic integration step of the missing
idm/ engine (spec 4.4 step 4) — integrate velocity `max(0, v + a*dt)` and
position `s + v*dt + a*dt^2/2`.  The IDM policy's acceleration is taken as
given, unclamped. -/
def propagate_agent_state (st : IDMAgentState) (accel : ℚ) (tspan : ℚ) :
    IDMAgentState :=
  { progress := st.progress + st.velocity * tspan + accel * tspan ^ 2 / 2,
    velocity := max 0 (st.velocity + accel * tspan) }

/-- A simulated agent: identity, assigned-path length, its IDM parameters,
kinematic state, and whether it is still ACTIVE (spec 4.4). -/
structure IDMAgent where
  agent_id : Nat
  path_length : ℚ
  target_velocity : ℚ
  min_gap_to_lead_agent : ℚ
  headway_time : ℚ
  accel_max : ℚ
  decel_max : ℚ
  state : IDMAgentState
  active : Bool
  deriving DecidableEq

/-- Modelled from the spec: the free-road branch of the IDM policy
(spec 4.1, no lead agent, interaction term omitted):
`a = a_max * (1 - (v / v_desired)^4)`. -/
def idm_free_accel (a : IDMAgent) : ℚ :=
  a.accel_max * (1 - (a.state.velocity / a.target_velocity) ^ 4)

/-- Modelled from the spec: one manager step for a single agent
(spec 4.4 steps 3-4): apply the IDM acceleration, integrate, clamp the
position to the path length and transition to EXITED when the path end is
reached.  Lead-agent resolution through the occupancy index and traffic-light
virtual obstacles belongs to the missing engine and is not exercised by the
claims below, so the free-road IDM branch supplies the acceleration. -/
def propagate_idm_agent (a : IDMAgent) (tspan : ℚ) : IDMAgent :=
  if a.active then
    let st := propagate_agent_state a.state (idm_free_accel a) tspan
    if a.path_length ≤ st.progress then
      { a with state := { progress := a.path_length, velocity := st.velocity },
               active := false }
    else { a with state := st }
  else a

/-- The IDMAgentManager's constructor arguments (idm_agent_manager.py, not
among the visible sources): the agent population, the occupancy structure
(opaque here) and the map api handle. -/
structure IDMAgentManager where
  agents : List IDMAgent
  agent_occupancy : Nat
  map_api : Nat
  deriving DecidableEq

/-- The distinct error kinds of spec section 7. -/
inductive PropagateError where
  | InvalidTimestep
  | UnknownAgent
  | MalformedPath
  deriving DecidableEq

/-- Modelled from the spec: IDMAgentManager.propagate_agents (not among the
visible sources).  A negative time delta is a precondition violation reported
as InvalidTimestep, fatal for the call, before any agent state is advanced
(spec sections 6 and 7); otherwise every ACTIVE agent is stepped.  The ego
state, iteration and traffic-light mapping are received as the caller hands
them over. -/
def propagate_agents (m : IDMAgentManager) (ego_state : EgoState) (tspan : ℚ)
    (iteration : Nat)
    (traffic_light_status : List (TrafficLightStatusType × List String)) :
    Except PropagateError IDMAgentManager :=
  if tspan < 0 then Except.error PropagateError.InvalidTimestep
  else Except.ok { m with agents := m.agents.map (fun a => propagate_idm_agent a tspan) }

/-- Modelled from the spec: the detections snapshot
IDMAgentManager.get_active_agents produces (spec 4.4 step 7) — the active
agents at the given iteration with the requested planned-trajectory sampling.
The sampling parameters are recorded so that what the adapter forwarded is
observable. -/
structure DetectionsTracks where
  agents : List IDMAgent
  iteration : Nat
  planned_trajectory_samples : Nat
  planned_trajectory_sample_interval : ℚ

/-- Modelled from the spec: IDMAgentManager.get_active_agents (not among the
visible sources). -/
def get_active_agents (m : IDMAgentManager) (iteration : Nat) (samples : Nat)
    (interval : ℚ) : DetectionsTracks :=
  { agents := m.agents.filter (fun a => a.active), iteration := iteration,
    planned_trajectory_samples := samples,
    planned_trajectory_sample_interval := interval }

/- ### scenario (external collaborator) -/

/-- The part of AbstractScenario the adapter uses: the traffic-light records
at an iteration index, the map api handle, and the map-rail agent population
that build_idm_agents_on_map_rails samples — deterministic data indexed by
the builder's parameters. -/
structure Scenario where
  get_traffic_light_status_at_iteration : Nat → List TrafficLightStatusData
  map_api : Nat
  map_rails : ℚ → ℚ → ℚ → ℚ → ℚ → ℚ → List IDMAgent × Nat

/-- Modelled from the spec: build_idm_agents_on_map_rails
(idm_agents_builder.py, not among the visible sources) samples the initial
agent set and occupancy from map rails, an external collaborator (spec
sections 3 and 6); modelled as scenario-supplied data, deterministic in the
builder's parameters. -/
def build_idm_agents_on_map_rails (target_velocity min_gap_to_lead_agent
    headway_time accel_max decel_max minimum_path_length : ℚ)
    (scenario : Scenario) : List IDMAgent × Nat :=
  scenario.map_rails target_velocity min_gap_to_lead_agent headway_time
    accel_max decel_max minimum_path_length

/- ### idm_agents.py : the IDMAgents observation adapter -/

/-- The adapter's attributes after `__init__` (idm_agents.py lines 44-57). -/
structure IDMAgents where
  current_iteration : Nat
  target_velocity : ℚ
  min_gap_to_lead_agent : ℚ
  headway_time : ℚ
  accel_max : ℚ
  decel_max : ℚ
  scenario : Scenario
  minimum_path_length : ℚ
  planned_trajectory_samples : Nat
  planned_trajectory_sample_interval : ℚ
  idm_agent_manager : Option IDMAgentManager

/-- The constructor (idm_agents.py lines 19-57): stores the configuration,
sets current_iteration to 0 and leaves the manager unbuilt (None). -/
def IDMAgents.init (target_velocity min_gap_to_lead_agent headway_time
    accel_max decel_max : ℚ) (scenario : Scenario) (minimum_path_length : ℚ)
    (planned_trajectory_samples : Nat)
    (planned_trajectory_sample_interval : ℚ) : IDMAgents :=
  { current_iteration := 0,
    target_velocity := target_velocity,
    min_gap_to_lead_agent := min_gap_to_lead_agent,
    headway_time := headway_time,
    accel_max := accel_max,
    decel_max := decel_max,
    scenario := scenario,
    minimum_path_length := minimum_path_length,
    planned_trajectory_samples := planned_trajectory_samples,
    planned_trajectory_sample_interval := planned_trajectory_sample_interval,
    idm_agent_manager := none }

/-- The declared default of minimum_path_length (idm_agents.py line 27). -/
def default_minimum_path_length : ℚ := 20

/-- The declared default of planned_trajectory_samples (line 28). -/
def default_planned_trajectory_samples : Nat := 6

/-- The declared default of planned_trajectory_sample_interval, 0.5 s
(line 29). -/
def default_planned_trajectory_sample_interval : ℚ := 1 / 2

/-- The constructor with the three optional parameters left unsupplied, so
they take their declared defaults. -/
def IDMAgents.init_default (target_velocity min_gap_to_lead_agent headway_time
    accel_max decel_max : ℚ) (scenario : Scenario) : IDMAgents :=
  IDMAgents.init target_velocity min_gap_to_lead_agent headway_time accel_max
    decel_max scenario default_minimum_path_length
    default_planned_trajectory_samples
    default_planned_trajectory_sample_interval

/-- IDMAgents.reset (idm_agents.py lines 59-62): current_iteration back to 0
and the held manager discarded. -/
def IDMAgents.reset (s : IDMAgents) : IDMAgents :=
  { s with current_iteration := 0, idm_agent_manager := none }

/-- The manager _get_idm_agent_manager builds when none is held yet
(idm_agents.py lines 69-79): agents and occupancy from
build_idm_agents_on_map_rails on the stored configuration and scenario, plus
the scenario's map api. -/
def IDMAgents.built_manager (s : IDMAgents) : IDMAgentManager :=
  let ao := build_idm_agents_on_map_rails s.target_velocity
    s.min_gap_to_lead_agent s.headway_time s.accel_max s.decel_max
    s.minimum_path_length s.scenario
  { agents := ao.1, agent_occupancy := ao.2, map_api := s.scenario.map_api }

/-- IDMAgents._get_idm_agent_manager (idm_agents.py lines 64-81): returns the
held manager, building and storing it first when none is held.  The Python
guard `if not self._idm_agent_manager` is an is-None test here, since the
manager object itself is always truthy. -/
def IDMAgents.get_idm_agent_manager (s : IDMAgents) :
    IDMAgentManager × IDMAgents :=
  match s.idm_agent_manager with
  | some m => (m, s)
  | none => (s.built_manager, { s with idm_agent_manager := some s.built_manager })

/-- IDMAgents.get_observation (idm_agents.py lines 91-96): ask the manager
for the active agents at the current iteration with the stored
planned-trajectory sampling parameters. -/
def IDMAgents.get_observation (s : IDMAgents) : DetectionsTracks × IDMAgents :=
  let p := s.get_idm_agent_manager
  (get_active_agents p.1 p.2.current_iteration p.2.planned_trajectory_samples
    p.2.planned_trajectory_sample_interval, p.2)

/-- One `d[status].append(cid)` on the defaultdict(list) (idm_agents.py line
112): a new key's entry is created at the end of the dict order, an existing
entry's list is extended at its end. -/
def append_to_status : List (TrafficLightStatusType × List String) →
    TrafficLightStatusType → String → List (TrafficLightStatusType × List String)
  | [], status, cid => [(status, [cid])]
  | (k, v) :: rest, status, cid =>
      if k = status then (k, v ++ [cid]) :: rest
      else (k, v) :: append_to_status rest status cid

/-- The loop of idm_agents.py lines 109-112: build the
Dict[TrafficLightStatusType, List[str]], appending str(lane_connector_id)
under each record's status, in record order. -/
def build_traffic_light_status (records : List TrafficLightStatusData) :
    List (TrafficLightStatusType × List String) :=
  records.foldl
    (fun d data => append_to_status d data.status (toString data.lane_connector_id)) []

/-- The argument tuple update_observation hands to propagate_agents
(idm_agents.py line 115). -/
structure PropagateCall where
  ego_state : EgoState
  tspan : ℚ
  iteration : Nat
  traffic_light_status : List (TrafficLightStatusType × List String)

/-- What one update_observation call does: the propagate_agents call it
makes, that call's outcome, and the adapter state afterwards. -/
structure UpdateResult where
  call : PropagateCall
  outcome : Except PropagateError IDMAgentManager
  state : IDMAgents

/-- IDMAgents.update_observation (idm_agents.py lines 98-115): set
current_iteration to next_iteration.index, derive tspan from the two
iterations' timestamps, fetch the scenario's traffic-light records at the new
current_iteration, build the status dictionary, take the ego state from the
history buffer and call propagate_agents on the (lazily obtained) manager.
On success the propagated manager is the held one; a failed call leaves the
previously held manager as it was (spec section 7: no partial mutation). -/
def IDMAgents.update_observation (s : IDMAgents)
    (iteration next_iteration : SimulationIteration)
    (history : SimulationHistoryBuffer) : UpdateResult :=
  let s1 : IDMAgents := { s with current_iteration := next_iteration.index }
  let tspan : ℚ := next_iteration.time_s - iteration.time_s
  let traffic_light_data :=
    s1.scenario.get_traffic_light_status_at_iteration s1.current_iteration
  let traffic_light_status := build_traffic_light_status traffic_light_data
  let ego_state := history.current_state.1
  let p := s1.get_idm_agent_manager
  let outcome :=
    propagate_agents p.1 ego_state tspan s1.current_iteration traffic_light_status
  { call := { ego_state := ego_state, tspan := tspan,
              iteration := s1.current_iteration,
              traffic_light_status := traffic_light_status },
    outcome := outcome,
    state := { p.2 with idm_agent_manager :=
      match outcome with
      | Except.ok m2 => some m2
      | Except.error _ => p.2.idm_agent_manager } }

/- ### The built dictionary seen as runtime key-value pairs -/

/-- A Python dict key as it exists at runtime in this code: a string or a
TrafficLightStatusType. -/
inductive PyKey where
  | str (s : String)
  | phase (t : TrafficLightStatusType)
  deriving DecidableEq

/-- A Python dict value as it exists at runtime in this code: a phase or a
list of strings. -/
inductive PyVal where
  | phase (t : TrafficLightStatusType)
  | strs (l : List String)
  deriving DecidableEq

/-- The built dictionary, type-erased to its runtime key-value pairs. -/
def as_py_dict (d : List (TrafficLightStatusType × List String)) :
    List (PyKey × PyVal) :=
  d.map (fun p => (PyKey.phase p.1, PyVal.strs p.2))

/-- Dictionary lookup over the runtime pairs. -/
def py_lookup (k : PyKey) (d : List (PyKey × PyVal)) : Option PyVal :=
  (d.find? (fun p => p.1 == k)).map (fun p => p.2)

/-- Lookup of a status key in the typed dictionary. -/
def lookup_status (s : TrafficLightStatusType) :
    List (TrafficLightStatusType × List String) → Option (List String)
  | [] => none
  | (k, v) :: rest => if k = s then some v else lookup_status s rest

/-- Reading d[status] on the defaultdict: the stored list, or [] for an
absent key. -/
def ids_for_status (d : List (TrafficLightStatusType × List String))
    (s : TrafficLightStatusType) : List String :=
  (lookup_status s d).getD []

/- ### concrete fixtures -/

/-- A scenario whose traffic-light records are a single RED record for lane
connector 1 at every iteration, with an empty map-rail agent population. -/
def ex_scenario : Scenario :=
  { get_traffic_light_status_at_iteration := fun _ =>
      [{ status := TrafficLightStatusType.RED, lane_connector_id := 1 }],
    map_api := 0,
    map_rails := fun _ _ _ _ _ _ => ([], 0) }

/-- An adapter built with the default optional parameters on ex_scenario. -/
def ex_adapter : IDMAgents :=
  IDMAgents.init_default 10 1 (3 / 2) (3 / 2) 2 ex_scenario

/-- Iteration 0 at time 0 s. -/
def ex_iter0 : SimulationIteration := { time_s := 0, index := 0 }

/-- Iteration 1 at time 0.5 s. -/
def ex_iter1 : SimulationIteration := { time_s := 1 / 2, index := 1 }

/-- A history buffer with one ego state. -/
def ex_history : SimulationHistoryBuffer :=
  { current_state := ({ handle := 0 }, 0) }

/-- An empty manager. -/
def ex_manager : IDMAgentManager :=
  { agents := [], agent_occupancy := 0, map_api := 0 }

/- ### helper lemmas about the traffic-light dictionary -/

theorem lookup_append_same (d : List (TrafficLightStatusType × List String))
    (s : TrafficLightStatusType) (cid : String) :
    lookup_status s (append_to_status d s cid)
      = some ((lookup_status s d).getD [] ++ [cid]) := by
  induction d with
  | nil => simp [append_to_status, lookup_status]
  | cons kv rest ih =>
      obtain ⟨k, v⟩ := kv
      by_cases h : k = s
      · subst h
        simp [append_to_status, lookup_status]
      · simp [append_to_status, lookup_status, h, ih]

theorem lookup_append_other (d : List (TrafficLightStatusType × List String))
    (s0 s : TrafficLightStatusType) (cid : String) (h : s0 ≠ s) :
    lookup_status s (append_to_status d s0 cid) = lookup_status s d := by
  induction d with
  | nil => simp [append_to_status, lookup_status, h]
  | cons kv rest ih =>
      obtain ⟨k, v⟩ := kv
      by_cases hk : k = s0
      · simp [append_to_status, lookup_status, hk, h]
      · by_cases hs : k = s
        · simp [append_to_status, lookup_status, hk, hs, Ne.symm h]
        · simp [append_to_status, lookup_status, hk, hs, ih]

theorem mem_ids_append (d : List (TrafficLightStatusType × List String))
    (s0 s : TrafficLightStatusType) (cid x : String)
    (hx : x ∈ ids_for_status d s) :
    x ∈ ids_for_status (append_to_status d s0 cid) s := by
  by_cases h : s0 = s
  · subst h
    have := lookup_append_same d s0 cid
    simp [ids_for_status, this]
    exact Or.inl hx
  · simp [ids_for_status, lookup_append_other d s0 s cid h]
    exact hx

theorem mem_ids_append_self (d : List (TrafficLightStatusType × List String))
    (s : TrafficLightStatusType) (cid : String) :
    cid ∈ ids_for_status (append_to_status d s cid) s := by
  simp [ids_for_status, lookup_append_same d s cid]

theorem mem_ids_foldl (records : List TrafficLightStatusData)
    (d : List (TrafficLightStatusType × List String))
    (s : TrafficLightStatusType) (x : String) (hx : x ∈ ids_for_status d s) :
    x ∈ ids_for_status
      (records.foldl
        (fun d data => append_to_status d data.status (toString data.lane_connector_id)) d)
      s := by
  induction records generalizing d with
  | nil => exact hx
  | cons a as ih => exact ih _ (mem_ids_append _ _ _ _ _ hx)

theorem mem_ids_build_aux (records : List TrafficLightStatusData)
    (r : TrafficLightStatusData) :
    ∀ d, r ∈ records →
      toString r.lane_connector_id ∈
        ids_for_status
          (records.foldl
            (fun d data => append_to_status d data.status (toString data.lane_connector_id)) d)
          r.status := by
  induction records with
  | nil => intro d hr; cases hr
  | cons a as ih =>
      intro d hr
      rcases List.mem_cons.mp hr with h | h
      · subst h
        exact mem_ids_foldl as _ _ _ (mem_ids_append_self d r.status _)
      · exact ih _ h

theorem mem_ids_build (records : List TrafficLightStatusData)
    (r : TrafficLightStatusData) (hr : r ∈ records) :
    toString r.lane_connector_id ∈
      ids_for_status (build_traffic_light_status records) r.status :=
  mem_ids_build_aux records r [] hr

/- ### claim theorems -/

/-- C1: in every update_observation call whose time delta, computed from the
successive iteration timestamps, is negative, the propagate call fails with
the InvalidTimestep error and the adapter still holds exactly the manager it
held or built before the propagate call — no agent state is advanced, the
negative delta is neither passed on silently nor clamped. -/
theorem update_observation_negative_tspan (s : IDMAgents)
    (iteration next_iteration : SimulationIteration)
    (history : SimulationHistoryBuffer)
    (h : next_iteration.time_s - iteration.time_s < 0) :
    (s.update_observation iteration next_iteration history).outcome
        = Except.error PropagateError.InvalidTimestep ∧
    (s.update_observation iteration next_iteration history).state.idm_agent_manager
        = some ({ s with current_iteration := next_iteration.index } : IDMAgents).get_idm_agent_manager.1 := by
  have h2 : next_iteration.time_s < iteration.time_s := sub_neg.mp h
  obtain ⟨ci, tv, mg, hw, am, dm, sc, mpl, pts, ptsi, mgr⟩ := s
  rcases mgr with _ | m <;>
    refine ⟨?_, ?_⟩ <;>
      simp [IDMAgents.update_observation, IDMAgents.get_idm_agent_manager,
        propagate_agents, h2]

/-- Witness for C1: a concrete call whose iterations run backwards in time. -/
theorem update_observation_negative_tspan_witness :
    (ex_adapter.update_observation ex_iter1 ex_iter0 ex_history).outcome
        = Except.error PropagateError.InvalidTimestep ∧
    (ex_adapter.update_observation ex_iter1 ex_iter0 ex_history).state.idm_agent_manager
        = some ({ ex_adapter with current_iteration := ex_iter0.index } : IDMAgents).get_idm_agent_manager.1 :=
  update_observation_negative_tspan ex_adapter ex_iter1 ex_iter0 ex_history
    (by norm_num [ex_iter0, ex_iter1])

/-- C2 counterexample: with a single RED record for lane connector 1, the
mapping handed to propagate_agents is keyed by the phase (with value the list
of lane-connector id strings), and looking the lane-connector id string "1"
up in it finds nothing — not the record's phase, contrary to the claim that
the keys are lane-connector identifier strings and that looking up a record's
id yields its phase. -/
theorem update_observation_tl_keys_not_ids :
    as_py_dict ((ex_adapter.update_observation ex_iter0 ex_iter1 ex_history).call.traffic_light_status)
        = [(PyKey.phase TrafficLightStatusType.RED, PyVal.strs ["1"])] ∧
    py_lookup (PyKey.str "1")
        (as_py_dict ((ex_adapter.update_observation ex_iter0 ex_iter1 ex_history).call.traffic_light_status))
        = none :=
  ⟨rfl, rfl⟩

/-- C2 (amended): the per-step traffic-light input handed to propagate_agents
maps each traffic-light phase to the list of lane-connector identifier
strings with that phase at the current iteration: for every traffic-light
record the scenario provides at next_iteration.index, the list stored under
the record's status contains the record's lane-connector id string. -/
theorem update_observation_traffic_light_map (s : IDMAgents)
    (iteration next_iteration : SimulationIteration)
    (history : SimulationHistoryBuffer) (r : TrafficLightStatusData)
    (hr : r ∈ s.scenario.get_traffic_light_status_at_iteration next_iteration.index) :
    toString r.lane_connector_id ∈
      ids_for_status
        ((s.update_observation iteration next_iteration history).call.traffic_light_status)
        r.status :=
  mem_ids_build _ r hr

/-- Witness for C2 at the concrete RED record. -/
theorem update_observation_traffic_light_map_witness :
    toString (1 : Int) ∈
      ids_for_status
        ((ex_adapter.update_observation ex_iter0 ex_iter1 ex_history).call.traffic_light_status)
        TrafficLightStatusType.RED :=
  update_observation_traffic_light_map ex_adapter ex_iter0 ex_iter1 ex_history
    { status := TrafficLightStatusType.RED, lane_connector_id := 1 }
    (by simp [ex_adapter, IDMAgents.init_default, IDMAgents.init, ex_scenario])

/-- C3: the constructor stores configuration and leaves the manager unbuilt;
a call that needs the manager on a state holding none builds it from the
stored configuration and scenario and stores it; every call on a state that
already holds a manager returns that same manager and leaves the state
unchanged, so the manager is built at most once until a reset. -/
theorem lazy_manager_construction :
    (∀ (tv mg hw am dm : ℚ) (sc : Scenario) (mpl : ℚ) (pts : Nat) (ptsi : ℚ),
      (IDMAgents.init tv mg hw am dm sc mpl pts ptsi).idm_agent_manager = none)
  ∧ (∀ s : IDMAgents, s.idm_agent_manager = none →
      s.get_idm_agent_manager
        = (s.built_manager, { s with idm_agent_manager := some s.built_manager }))
  ∧ (∀ (s : IDMAgents) (m : IDMAgentManager), s.idm_agent_manager = some m →
      s.get_idm_agent_manager = (m, s)) := by
  refine ⟨fun _ _ _ _ _ _ _ _ _ => rfl, fun s hs => ?_, fun s m hm => ?_⟩
  · simp [IDMAgents.get_idm_agent_manager, hs]
  · simp [IDMAgents.get_idm_agent_manager, hm]

/-- Witness for C3: a state already holding a manager returns it unchanged. -/
theorem lazy_manager_construction_witness :
    ({ ex_adapter with idm_agent_manager := some ex_manager } : IDMAgents).get_idm_agent_manager
      = (ex_manager, { ex_adapter with idm_agent_manager := some ex_manager }) :=
  lazy_manager_construction.2.2 _ ex_manager rfl

/-- C4: for every agent state, acceleration and Δt ≥ 0, the velocity after
kinematic integration equals max(0, v + a·Δt), and the integrated velocity is
never negative whatever the sign of the (unclamped) acceleration. -/
theorem propagate_velocity_clamp :
    (∀ (st : IDMAgentState) (accel tspan : ℚ), 0 ≤ tspan →
      (propagate_agent_state st accel tspan).velocity
        = max 0 (st.velocity + accel * tspan))
  ∧ (∀ (st : IDMAgentState) (accel tspan : ℚ),
      0 ≤ (propagate_agent_state st accel tspan).velocity) :=
  ⟨fun _ _ _ _ => rfl, fun _ _ _ => le_max_left 0 _⟩

/-- Witness for C4: a strong braking acceleration at Δt = 1 still yields the
clamped velocity. -/
theorem propagate_velocity_clamp_witness :
    (propagate_agent_state { progress := 0, velocity := 5 } (-10) 1).velocity
      = max 0 (5 + (-10) * 1) :=
  propagate_velocity_clamp.1 { progress := 0, velocity := 5 } (-10) 1
    (by norm_num)

/-- C5: the time delta handed to propagate_agents is exactly
next_iteration.time_s - iteration.time_s, derived from the iterations
themselves. -/
theorem update_observation_tspan (s : IDMAgents)
    (iteration next_iteration : SimulationIteration)
    (history : SimulationHistoryBuffer) :
    (s.update_observation iteration next_iteration history).call.tspan
      = next_iteration.time_s - iteration.time_s := rfl

/-- C6: update_observation sets the adapter's current iteration to
next_iteration.index, hands that index to propagate_agents, and the
traffic-light mapping it hands over is rebuilt from the records the scenario
provides at exactly that index. -/
theorem update_observation_iteration_and_records (s : IDMAgents)
    (iteration next_iteration : SimulationIteration)
    (history : SimulationHistoryBuffer) :
    (s.update_observation iteration next_iteration history).state.current_iteration
        = next_iteration.index ∧
    (s.update_observation iteration next_iteration history).call.iteration
        = next_iteration.index ∧
    (s.update_observation iteration next_iteration history).call.traffic_light_status
        = build_traffic_light_status
            (s.scenario.get_traffic_light_status_at_iteration next_iteration.index) := by
  refine ⟨?_, rfl, rfl⟩
  obtain ⟨ci, tv, mg, hw, am, dm, sc, mpl, pts, ptsi, mgr⟩ := s
  rcases mgr with _ | m <;> rfl

/-- C7: with the planned-trajectory parameters left at their declared
defaults, every get_observation call forwards exactly 6 samples at a
0.5-second interval to the manager; in general the forwarded values are the
stored configuration fields. -/
theorem get_observation_planned_trajectory_defaults :
    (∀ (tv mg hw am dm : ℚ) (sc : Scenario),
      ((IDMAgents.init_default tv mg hw am dm sc).get_observation).1.planned_trajectory_samples = 6
      ∧ ((IDMAgents.init_default tv mg hw am dm sc).get_observation).1.planned_trajectory_sample_interval = 1 / 2)
  ∧ (∀ s : IDMAgents,
      (s.get_observation).1.planned_trajectory_samples = s.planned_trajectory_samples
      ∧ (s.get_observation).1.planned_trajectory_sample_interval = s.planned_trajectory_sample_interval) := by
  constructor
  · intro tv mg hw am dm sc
    exact ⟨rfl, rfl⟩
  · intro s
    obtain ⟨ci, tv, mg, hw, am, dm, sc, mpl, pts, ptsi, mgr⟩ := s
    rcases mgr with _ | m <;> exact ⟨rfl, rfl⟩

/-- C8: reset restores the post-construction state: current iteration 0, the
held manager discarded, every configuration field unchanged, and the next
call that needs the manager rebuilds it from the stored configuration and
scenario exactly as on first use. -/
theorem reset_restores_initial (s : IDMAgents) :
    (s.reset).current_iteration = 0
  ∧ (s.reset).idm_agent_manager = none
  ∧ (s.reset).target_velocity = s.target_velocity
  ∧ (s.reset).min_gap_to_lead_agent = s.min_gap_to_lead_agent
  ∧ (s.reset).headway_time = s.headway_time
  ∧ (s.reset).accel_max = s.accel_max
  ∧ (s.reset).decel_max = s.decel_max
  ∧ (s.reset).scenario = s.scenario
  ∧ (s.reset).minimum_path_length = s.minimum_path_length
  ∧ (s.reset).planned_trajectory_samples = s.planned_trajectory_samples
  ∧ (s.reset).planned_trajectory_sample_interval = s.planned_trajectory_sample_interval
  ∧ (s.reset).get_idm_agent_manager.1 = s.built_manager
  ∧ (s.reset).built_manager = s.built_manager :=
  ⟨rfl, rfl, rfl, rfl, rfl, rfl, rfl, rfl, rfl, rfl, rfl, rfl, rfl⟩

/-- C9: MetricViolation.serialize omits the 'mean' field while deserialize
unconditionally reads data['mean'], so the serialize-then-deserialize round
trip fails with the missing-key error for 'mean' on every value. -/
theorem metricViolation_roundtrip_fails (v : MetricViolation) :
    MetricViolation.deserialize (MetricViolation.serialize v)
      = Except.error "mean" := rfl

/-- C10: for every member of MetricStatisticsType the
serialize-then-deserialize round trip returns the member itself, and the
serialized string (the member's value) is identical to the member's name. -/
theorem metricStatisticsType_roundtrip (t : MetricStatisticsType) :
    MetricStatisticsType.deserialize (MetricStatisticsType.serialize t) = some t
      ∧ MetricStatisticsType.serialize t = t.memberName := by
  cases t <;> exact ⟨rfl, rfl⟩

end Nuplan
